import Mathlib

/-!
Verification of the TenisPro order-management backend.

This file gives a shallow embedding, in Lean 4, of the order / product /
customer service-and-repository logic of the repository:

* `src/lib/errors.ts`               — error taxonomy (`ErrorCodes`, `createError`)
* `src/server/api/trpc-utils.ts`    — `convertAppErrorToTRPCError`
* `src/server/api/order/order.types.ts`   — `ORDER_STATUS_TRANSITIONS`, `TAX_RATE`
* `src/server/api/order/order.service.ts` — `OrderService`
* `src/server/api/order/order.repository.ts` — `OrderRepository`
* `src/server/api/product/product.service.ts` — `ProductService`
* `src/server/api/product/product.repository.ts` — `ProductRepository`
* `src/server/api/orderItem/orderItem.service.ts` — `OrderItemService`

The database is modelled as an in-memory record of lists (one list per
table) threaded through each operation; Prisma queries become list
look-ups, Prisma updates become list maps, and the TypeScript `Result`
convention becomes `Except AppError`.  JavaScript numbers holding money
are modelled as rationals (`ℚ`); quantities are integers.  Error
messages (interpolated strings) are elided: only the error `code` and
originating `layer` are kept, because all control flow in the source
branches on the code alone.  Timestamps (`new Date()`) are modelled by a
logical clock `now : Nat` stored in the database state.
-/

namespace TenisPro

/-- Order status enum (`OrderStatus` in `prisma/schema`):
PENDIENTE / PROCESANDO / DESPACHADO / CANCELADO. -/
inductive OrderStatus
  | PENDIENTE
  | PROCESANDO
  | DESPACHADO
  | CANCELADO
  deriving DecidableEq, Repr

/-- The closed error-code taxonomy of `src/lib/errors.ts` (`ErrorCodes`). -/
inductive ErrorCode
  | ORDER_NOT_FOUND
  | ORDER_ALREADY_CANCELLED
  | ORDER_CANNOT_BE_MODIFIED
  | ORDER_INVALID_STATUS_TRANSITION
  | ORDER_ITEMS_REQUIRED
  | ORDER_TOTAL_MISMATCH
  | ORDER_ALREADY_SHIPPED
  | ORDER_ALREADY_DELIVERED
  | PRODUCT_NOT_FOUND
  | PRODUCT_OUT_OF_STOCK
  | PRODUCT_INSUFFICIENT_INVENTORY
  | PRODUCT_INACTIVE
  | PRODUCT_INVALID_QUANTITY
  | PRODUCT_PRICE_INVALID
  | PRODUCT_CATEGORY_NOT_FOUND
  | CUSTOMER_NOT_FOUND
  | CUSTOMER_EMAIL_EXISTS
  | CUSTOMER_INVALID_EMAIL
  | CUSTOMER_INACTIVE
  | CUSTOMER_MISSING_REQUIRED_FIELDS
  | CUSTOMER_INVALID_PHONE
  | NOTIFICATION_FAILED_TO_SEND
  | NOTIFICATION_OPENAI_API_ERROR
  | NOTIFICATION_TEMPLATE_NOT_FOUND
  | NOTIFICATION_INVALID_RECIPIENT
  | NOTIFICATION_RATE_LIMITED
  | NOTIFICATION_GENERATION_FAILED
  | DATABASE_CONNECTION_ERROR
  | DATABASE_QUERY_ERROR
  | DATABASE_TRANSACTION_ERROR
  | DATABASE_CONSTRAINT_VIOLATION
  | DATABASE_UNIQUE_CONSTRAINT
  | DATABASE_FOREIGN_KEY_CONSTRAINT
  | DATABASE_TIMEOUT
  | DATABASE_MIGRATION_ERROR
  | VALIDATION_INVALID_INPUT
  | VALIDATION_REQUIRED_FIELD
  | VALIDATION_INVALID_FORMAT
  | VALIDATION_OUT_OF_RANGE
  | VALIDATION_INVALID_ENUM
  | VALIDATION_SCHEMA_ERROR
  | AUTH_UNAUTHORIZED
  | AUTH_FORBIDDEN
  | AUTH_SESSION_EXPIRED
  | AUTH_INVALID_TOKEN
  | SYSTEM_INTERNAL_ERROR
  | SYSTEM_SERVICE_UNAVAILABLE
  | SYSTEM_CONFIGURATION_ERROR
  | SYSTEM_EXTERNAL_SERVICE_ERROR
  | SYSTEM_NETWORK_ERROR
  deriving DecidableEq, Repr

/-- Originating layer tag carried by every `AppError`. -/
inductive Layer
  | repository
  | service
  | router
  deriving DecidableEq, Repr

/-- `AppError` of `src/lib/errors.ts`, reduced to the fields the control
flow inspects (the interpolated human message is elided). -/
structure AppError where
  code : ErrorCode
  layer : Layer
  deriving DecidableEq, Repr

/- The `createError` helper factory of `src/lib/errors.ts`. -/
namespace createError

def orderNotFound : AppError := ⟨.ORDER_NOT_FOUND, .service⟩

def orderAlreadyCancelled : AppError := ⟨.ORDER_ALREADY_CANCELLED, .service⟩

def invalidStatusTransition : AppError := ⟨.ORDER_INVALID_STATUS_TRANSITION, .service⟩

def productNotFound : AppError := ⟨.PRODUCT_NOT_FOUND, .service⟩

def productOutOfStock : AppError := ⟨.PRODUCT_OUT_OF_STOCK, .service⟩

def insufficientInventory : AppError := ⟨.PRODUCT_INSUFFICIENT_INVENTORY, .service⟩

def customerNotFound : AppError := ⟨.CUSTOMER_NOT_FOUND, .service⟩

def customerEmailExists : AppError := ⟨.CUSTOMER_EMAIL_EXISTS, .service⟩

def databaseError : AppError := ⟨.DATABASE_QUERY_ERROR, .repository⟩

def constraintViolation : AppError := ⟨.DATABASE_CONSTRAINT_VIOLATION, .repository⟩

def validationError : AppError := ⟨.VALIDATION_INVALID_INPUT, .router⟩

def requiredField : AppError := ⟨.VALIDATION_REQUIRED_FIELD, .router⟩

def internalError : AppError := ⟨.SYSTEM_INTERNAL_ERROR, .service⟩

end createError

/-- The tRPC transport error codes that actually occur in the `codeMap`
of `convertAppErrorToTRPCError` (`src/server/api/trpc-utils.ts`). -/
inductive TRPCCode
  | NOT_FOUND
  | CONFLICT
  | BAD_REQUEST
  | INTERNAL_SERVER_ERROR
  | TOO_MANY_REQUESTS
  | TIMEOUT
  | UNAUTHORIZED
  | FORBIDDEN
  deriving DecidableEq, Repr

/-- The `codeMap` of `convertAppErrorToTRPCError` in
`src/server/api/trpc-utils.ts`, entry by entry.  (On the closed
`ErrorCode` taxonomy every code has an explicit entry; the
`|| 'INTERNAL_SERVER_ERROR'` fallback of the source is only reachable
for strings outside the taxonomy.) -/
def convertAppErrorToTRPCError : AppError → TRPCCode := fun e =>
  match e.code with
  | .ORDER_NOT_FOUND => .NOT_FOUND
  | .ORDER_ALREADY_CANCELLED => .CONFLICT
  | .ORDER_CANNOT_BE_MODIFIED => .CONFLICT
  | .ORDER_INVALID_STATUS_TRANSITION => .CONFLICT
  | .ORDER_ITEMS_REQUIRED => .BAD_REQUEST
  | .ORDER_TOTAL_MISMATCH => .BAD_REQUEST
  | .ORDER_ALREADY_SHIPPED => .CONFLICT
  | .ORDER_ALREADY_DELIVERED => .CONFLICT
  | .PRODUCT_NOT_FOUND => .NOT_FOUND
  | .PRODUCT_OUT_OF_STOCK => .CONFLICT
  | .PRODUCT_INSUFFICIENT_INVENTORY => .CONFLICT
  | .PRODUCT_INACTIVE => .CONFLICT
  | .PRODUCT_INVALID_QUANTITY => .BAD_REQUEST
  | .PRODUCT_PRICE_INVALID => .BAD_REQUEST
  | .PRODUCT_CATEGORY_NOT_FOUND => .NOT_FOUND
  | .CUSTOMER_NOT_FOUND => .NOT_FOUND
  | .CUSTOMER_EMAIL_EXISTS => .CONFLICT
  | .CUSTOMER_INVALID_EMAIL => .BAD_REQUEST
  | .CUSTOMER_INACTIVE => .CONFLICT
  | .CUSTOMER_MISSING_REQUIRED_FIELDS => .BAD_REQUEST
  | .CUSTOMER_INVALID_PHONE => .BAD_REQUEST
  | .NOTIFICATION_FAILED_TO_SEND => .INTERNAL_SERVER_ERROR
  | .NOTIFICATION_OPENAI_API_ERROR => .INTERNAL_SERVER_ERROR
  | .NOTIFICATION_TEMPLATE_NOT_FOUND => .NOT_FOUND
  | .NOTIFICATION_INVALID_RECIPIENT => .BAD_REQUEST
  | .NOTIFICATION_RATE_LIMITED => .TOO_MANY_REQUESTS
  | .NOTIFICATION_GENERATION_FAILED => .INTERNAL_SERVER_ERROR
  | .DATABASE_CONNECTION_ERROR => .INTERNAL_SERVER_ERROR
  | .DATABASE_QUERY_ERROR => .INTERNAL_SERVER_ERROR
  | .DATABASE_TRANSACTION_ERROR => .INTERNAL_SERVER_ERROR
  | .DATABASE_CONSTRAINT_VIOLATION => .CONFLICT
  | .DATABASE_UNIQUE_CONSTRAINT => .CONFLICT
  | .DATABASE_FOREIGN_KEY_CONSTRAINT => .CONFLICT
  | .DATABASE_TIMEOUT => .TIMEOUT
  | .DATABASE_MIGRATION_ERROR => .INTERNAL_SERVER_ERROR
  | .VALIDATION_INVALID_INPUT => .BAD_REQUEST
  | .VALIDATION_REQUIRED_FIELD => .BAD_REQUEST
  | .VALIDATION_INVALID_FORMAT => .BAD_REQUEST
  | .VALIDATION_OUT_OF_RANGE => .BAD_REQUEST
  | .VALIDATION_INVALID_ENUM => .BAD_REQUEST
  | .VALIDATION_SCHEMA_ERROR => .BAD_REQUEST
  | .AUTH_UNAUTHORIZED => .UNAUTHORIZED
  | .AUTH_FORBIDDEN => .FORBIDDEN
  | .AUTH_SESSION_EXPIRED => .UNAUTHORIZED
  | .AUTH_INVALID_TOKEN => .UNAUTHORIZED
  | .SYSTEM_INTERNAL_ERROR => .INTERNAL_SERVER_ERROR
  | .SYSTEM_SERVICE_UNAVAILABLE => .INTERNAL_SERVER_ERROR
  | .SYSTEM_CONFIGURATION_ERROR => .INTERNAL_SERVER_ERROR
  | .SYSTEM_EXTERNAL_SERVICE_ERROR => .INTERNAL_SERVER_ERROR
  | .SYSTEM_NETWORK_ERROR => .INTERNAL_SERVER_ERROR

/-! ## Data model

One structure per table.  Attributes that no claim-relevant operation
reads or branches on (description, category, brand, SKU, image, the
customer address book fields, created/updated timestamps) are elided. -/

/-- A row of the `products` table. -/
structure Product where
  id : Nat
  name : String
  price : ℚ
  availableAmount : Int
  isActive : Bool
  isDeleted : Bool
  deriving DecidableEq, Repr

/-- A row of the `customers` table. -/
structure Customer where
  id : Nat
  name : String
  email : String
  isActive : Bool
  isDeleted : Bool
  deriving DecidableEq, Repr

/-- A row of the `order_items` table (the owning `orderId` is implicit:
items are stored inside their order). -/
structure OrderItemRec where
  productId : Nat
  quantity : Int
  unitPrice : ℚ
  totalPrice : ℚ
  discount : ℚ
  deriving DecidableEq, Repr

/-- A row of the `orders` table, with its owned items. -/
structure OrderRec where
  id : Nat
  orderNumber : String
  orderStatus : OrderStatus
  customerId : Nat
  subtotal : ℚ
  taxAmount : ℚ
  shippingCost : ℚ
  discount : ℚ
  totalAmount : ℚ
  notes : Option String
  customerNotes : Option String
  shippingAddress : Option String
  billingAddress : Option String
  trackingNumber : Option String
  shippedAt : Option Nat
  cancelledAt : Option Nat
  cancellationReason : Option String
  isDeleted : Bool
  items : List OrderItemRec
  deriving DecidableEq, Repr

/-- The in-memory database: one list per table, fresh-id counters for
inserts, a logical clock `now` for `new Date()` and the current `year`
for order-number generation. -/
structure DB where
  products : List Product
  customers : List Customer
  orders : List OrderRec
  nextCustomerId : Nat
  nextOrderId : Nat
  now : Nat
  year : Nat
  deriving DecidableEq, Repr

/-! ## Inputs (the zod-validated request shapes of `order.types.ts`) -/

/-- An entry of `CreateOrderSchema.orderItems` (`OrderItemSchema`):
`quantity` is a positive integer, `unitPrice` optional. -/
structure OrderItemInput where
  productId : Nat
  quantity : Int
  unitPrice : Option ℚ
  deriving DecidableEq, Repr

/-- Inline customer data of `CreateOrderSchema.customer`
(address-book fields elided as inert). -/
structure CreateCustomerInput where
  name : String
  email : String
  deriving DecidableEq, Repr

/-- `CreateOrderInput` of `order.types.ts` (`CreateOrderSchema`);
`shippingCost` and `discount` default to 0 in the schema, so they are
plain rationals here. -/
structure CreateOrderInput where
  customerId : Option Nat
  customer : Option CreateCustomerInput
  orderItems : List OrderItemInput
  notes : Option String
  customerNotes : Option String
  shippingAddress : Option String
  billingAddress : Option String
  shippingCost : ℚ
  discount : ℚ
  deriving DecidableEq, Repr

/-- `UpdateOrderInput` of `order.types.ts` (`UpdateOrderSchema`). -/
structure UpdateOrderInput where
  orderStatus : Option OrderStatus := none
  notes : Option String := none
  customerNotes : Option String := none
  shippingAddress : Option String := none
  billingAddress : Option String := none
  trackingNumber : Option String := none
  shippingCost : Option ℚ := none
  discount : Option ℚ := none
  cancellationReason : Option String := none
  deriving DecidableEq, Repr

/-- `UpdateOrderData` of `order.types.ts`: what the service hands to
`OrderRepository.update`.  A `none` field is an absent (`undefined`)
key, which Prisma leaves untouched. -/
structure UpdateOrderData where
  orderStatus : Option OrderStatus := none
  notes : Option String := none
  customerNotes : Option String := none
  shippingAddress : Option String := none
  billingAddress : Option String := none
  trackingNumber : Option String := none
  shippingCost : Option ℚ := none
  discount : Option ℚ := none
  shippedAt : Option Nat := none
  cancelledAt : Option Nat := none
  cancellationReason : Option String := none
  deriving DecidableEq, Repr

/-! ## Repository layer -/

namespace OrderRepository

/-- `findProductById` of `order.repository.ts`:
`findUnique({ where: { id, isDeleted: false, isActive: true } })` —
note that this lookup also filters on `isActive`. -/
def findProductById (products : List Product) (id : Nat) : Option Product :=
  products.find? fun p => p.id == id && !p.isDeleted && p.isActive

/-- `findCustomerById`: `findUnique({ where: { id, isDeleted: false } })`. -/
def findCustomerById (customers : List Customer) (id : Nat) : Option Customer :=
  customers.find? fun c => c.id == id && !c.isDeleted

/-- `findCustomerByEmail`: `findUnique({ where: { email, isDeleted: false } })`. -/
def findCustomerByEmail (customers : List Customer) (email : String) : Option Customer :=
  customers.find? fun c => c.email == email && !c.isDeleted

/-- `findById` of `order.repository.ts`:
`findUnique({ where: { id, isDeleted: false } })` including relations. -/
def findById (orders : List OrderRec) (id : Nat) : Option OrderRec :=
  orders.find? fun o => o.id == id && !o.isDeleted

/-- `createCustomer`: inserts with `isActive: true, isDeleted: false`;
a violation of the unique `email` constraint (any existing row with that
email, deleted or not) is re-wrapped as `CUSTOMER_EMAIL_EXISTS` (Prisma
error `P2002`). -/
def createCustomer (db : DB) (name email : String) : Except AppError (Nat × DB) :=
  if db.customers.any (fun c => c.email == email) then
    .error createError.customerEmailExists
  else
    let c : Customer :=
      { id := db.nextCustomerId, name := name, email := email
        isActive := true, isDeleted := false }
    .ok (db.nextCustomerId,
      { db with customers := db.customers ++ [c],
                nextCustomerId := db.nextCustomerId + 1 })

/-- Zero-padding of `(count + 1).toString().padStart(4, '0')`. -/
def padStart4 (n : Nat) : String :=
  let s := toString n
  if 4 ≤ s.length then s else String.mk (List.replicate (4 - s.length) '0') ++ s

/-- `generateOrderNumber`: `ORD-<year>-<zero-padded count+1>`, where the
count is over all orders (deleted included) whose number starts with the
year of the clock. -/
def generateOrderNumber (db : DB) : String :=
  let pre := "ORD-" ++ toString db.year ++ "-"
  let count := (db.orders.filter fun o => o.orderNumber.startsWith pre).length
  pre ++ padStart4 (count + 1)

/-- The per-item stock decrement of the order-creation transaction:
`tx.product.update({ where: { id }, data: { availableAmount: { decrement } } })`
for every item.  (A missing product id would abort the transaction in
the source; it is unreachable behind stock validation.) -/
def decrementProducts (products : List Product) (items : List OrderItemRec) : List Product :=
  items.foldl
    (fun acc item => acc.map fun p =>
      if p.id == item.productId then
        { p with availableAmount := p.availableAmount - item.quantity }
      else p)
    products

/-- `OrderRepository.create`: one transaction inserting the order with a
fresh id, inserting its items, and decrementing each referenced
product's stock. -/
def create (db : DB) (order : OrderRec) : OrderRec × DB :=
  let o := { order with id := db.nextOrderId }
  (o, { db with
          orders := db.orders ++ [o],
          products := decrementProducts db.products o.items,
          nextOrderId := db.nextOrderId + 1 })

/-- Application of an `UpdateOrderData` patch to a row, with Prisma's
semantics: absent (`none`) keys leave the column unchanged. -/
def applyUpdateData (o : OrderRec) (u : UpdateOrderData) : OrderRec :=
  { o with
    orderStatus := u.orderStatus.getD o.orderStatus
    notes := match u.notes with | some v => some v | none => o.notes
    customerNotes := match u.customerNotes with | some v => some v | none => o.customerNotes
    shippingAddress := match u.shippingAddress with | some v => some v | none => o.shippingAddress
    billingAddress := match u.billingAddress with | some v => some v | none => o.billingAddress
    trackingNumber := match u.trackingNumber with | some v => some v | none => o.trackingNumber
    shippingCost := u.shippingCost.getD o.shippingCost
    discount := u.discount.getD o.discount
    shippedAt := match u.shippedAt with | some v => some v | none => o.shippedAt
    cancelledAt := match u.cancelledAt with | some v => some v | none => o.cancelledAt
    cancellationReason := match u.cancellationReason with | some v => some v | none => o.cancellationReason }

/-- `OrderRepository.update`: `update({ where: { id, isDeleted: false },
data: ... })`; a non-matching `where` raises `P2025`, re-wrapped as
`ORDER_NOT_FOUND`. -/
def update (db : DB) (id : Nat) (u : UpdateOrderData) : Except AppError (OrderRec × DB) :=
  match findById db.orders id with
  | none => .error createError.orderNotFound
  | some o =>
    let o' := applyUpdateData o u
    .ok (o', { db with
      orders := db.orders.map fun x => if x.id == id && !x.isDeleted then o' else x })

/-- The per-item stock restoration of `cancelOrder`:
`tx.product.update({ where: { id }, data: { availableAmount: { increment } } })`. -/
def restoreProducts (products : List Product) (items : List OrderItemRec) : List Product :=
  items.foldl
    (fun acc item => acc.map fun p =>
      if p.id == item.productId then
        { p with availableAmount := p.availableAmount + item.quantity }
      else p)
    products

/-- `cancelOrder` of `order.repository.ts`: in one transaction, look the
order up, set `CANCELADO` / `cancelledAt` / `cancellationReason`
(`reason` absent leaves the column as is, per Prisma `undefined`
semantics), and — only if the prior status was not already `CANCELADO` —
restore each item's product stock.  A missing order throws inside the
transaction, surfacing as a `DATABASE_QUERY_ERROR`. -/
def cancelOrder (db : DB) (id : Nat) (reason : Option String) :
    Except AppError (OrderRec × DB) :=
  match findById db.orders id with
  | none => .error createError.databaseError
  | some order =>
    let updated :=
      { order with
        orderStatus := .CANCELADO
        cancelledAt := some db.now
        cancellationReason :=
          match reason with | some r => some r | none => order.cancellationReason }
    let orders' := db.orders.map fun x => if x.id == id then updated else x
    let products' :=
      if order.orderStatus ≠ .CANCELADO then
        restoreProducts db.products order.items
      else db.products
    .ok (updated, { db with orders := orders', products := products' })

/-- Soft delete: `update({ where: { id, isDeleted: false }, data: { isDeleted: true } })`. -/
def deleteOrder (db : DB) (id : Nat) : Except AppError DB :=
  match findById db.orders id with
  | none => .error createError.orderNotFound
  | some o =>
    .ok { db with orders := db.orders.map fun x =>
            if x.id == id && !x.isDeleted then { o with isDeleted := true } else x }

end OrderRepository

namespace ProductRepository

/-- `findById` of `product.repository.ts`:
`findUnique({ where: { id, isDeleted: false } })` — unlike the order
repository's product lookup, this does NOT filter on `isActive`. -/
def findById (products : List Product) (id : Nat) : Option Product :=
  products.find? fun p => p.id == id && !p.isDeleted

/-- `updateStock`: `update({ where: { id }, data: { availableAmount: newAmount } })`. -/
def updateStock (db : DB) (id : Nat) (newAmount : Int) : Except AppError (Product × DB) :=
  match db.products.find? (fun p => p.id == id) with
  | none => .error createError.databaseError
  | some p =>
    let p' := { p with availableAmount := newAmount }
    .ok (p', { db with products := db.products.map fun x => if x.id == id then p' else x })

/-- `decrementStock`: `update({ where: { id }, data: { availableAmount: { decrement: amount } } })`. -/
def decrementStock (db : DB) (id : Nat) (amount : Int) : Except AppError (Product × DB) :=
  match db.products.find? (fun p => p.id == id) with
  | none => .error createError.databaseError
  | some p =>
    let p' := { p with availableAmount := p.availableAmount - amount }
    .ok (p', { db with products := db.products.map fun x => if x.id == id then p' else x })

end ProductRepository

/-! ## Order service layer -/

/-- `ORDER_STATUS_TRANSITIONS` of `order.types.ts` as committed: the
comment there reads "All transitions are now allowed", and every status
lists the three other statuses as allowed targets. -/
def ORDER_STATUS_TRANSITIONS : OrderStatus → List OrderStatus
  | .PENDIENTE => [.PROCESANDO, .DESPACHADO, .CANCELADO]
  | .PROCESANDO => [.PENDIENTE, .DESPACHADO, .CANCELADO]
  | .DESPACHADO => [.PENDIENTE, .PROCESANDO, .CANCELADO]
  | .CANCELADO => [.PENDIENTE, .PROCESANDO, .DESPACHADO]

/-- `TAX_RATE` of `order.types.ts`: 19% IVA. -/
def TAX_RATE : ℚ := 19 / 100

/-- One entry of `StockValidationResult.errors`. -/
structure StockErrorEntry where
  productId : Nat
  productName : String
  requested : Int
  available : Int
  deriving DecidableEq, Repr

/-- `StockValidationResult` of `order.types.ts`. -/
structure StockValidationResult where
  isValid : Bool
  errors : List StockErrorEntry
  deriving DecidableEq, Repr

/-- `OrderCalculation` of `order.types.ts`. -/
structure OrderCalculation where
  subtotal : ℚ
  taxAmount : ℚ
  shippingCost : ℚ
  discount : ℚ
  totalAmount : ℚ
  deriving DecidableEq, Repr

namespace OrderService

/-- `OrderService.validateStock`: walk every requested item; a product
that the order repository's lookup misses (absent, soft-deleted or
inactive) contributes an `Unknown Product` entry with `available 0`; a
found product with `availableAmount < quantity` contributes a shortage
entry; in both cases `isValid` becomes false and the walk continues, so
all violations are collected.  (`validateStockStep` is the loop body,
named so the fold can be reasoned about.) -/
def validateStockStep (products : List Product) (acc : StockValidationResult)
    (item : OrderItemInput) : StockValidationResult :=
  match OrderRepository.findProductById products item.productId with
  | none =>
    { isValid := false,
      errors := acc.errors ++
        [{ productId := item.productId, productName := "Unknown Product",
           requested := item.quantity, available := 0 }] }
  | some p =>
    if p.availableAmount < item.quantity then
      { isValid := false,
        errors := acc.errors ++
          [{ productId := item.productId, productName := p.name,
             requested := item.quantity, available := p.availableAmount }] }
    else acc

/-- `OrderService.validateStock`, the loop itself. -/
def validateStock (products : List Product) (items : List OrderItemInput) :
    StockValidationResult :=
  items.foldl (validateStockStep products) { isValid := true, errors := [] }

/-- The subtotal loop of `OrderService.calculateOrderTotals`: per item,
the requested `unitPrice` if given, else the product's current price;
errors with `PRODUCT_NOT_FOUND` on a missing product. -/
def subtotalOf (products : List Product) : List OrderItemInput → Except AppError ℚ
  | [] => .ok 0
  | item :: rest =>
    match OrderRepository.findProductById products item.productId with
    | none => .error createError.productNotFound
    | some p =>
      (subtotalOf products rest).map fun s =>
        (item.unitPrice.getD p.price) * (item.quantity : ℚ) + s

/-- `OrderService.calculateOrderTotals`: `taxAmount = subtotal * TAX_RATE`
(no rounding anywhere), `totalAmount = subtotal + taxAmount +
shippingCost - discount`. -/
def calculateOrderTotals (products : List Product) (items : List OrderItemInput)
    (shippingCost discount : ℚ) : Except AppError OrderCalculation :=
  (subtotalOf products items).map fun subtotal =>
    let taxAmount := subtotal * TAX_RATE
    let totalAmount := subtotal + taxAmount + shippingCost - discount
    { subtotal := subtotal, taxAmount := taxAmount, shippingCost := shippingCost,
      discount := discount, totalAmount := totalAmount }

/-- `OrderService.validateStatusTransition`: membership in the
transition table (the error message of the invalid case is elided). -/
def validateStatusTransition (currentStatus newStatus : OrderStatus) : Bool :=
  (ORDER_STATUS_TRANSITIONS currentStatus).contains newStatus

/-- `OrderService.getOrCreateCustomer`: an explicit `customerId` must
exist; otherwise inline `customer` data is resolved by email — an
existing non-deleted customer is reused, else (name and email must be
non-empty, JS truthiness) a new customer is inserted; with neither, a
validation error. -/
def getOrCreateCustomer (db : DB) (input : CreateOrderInput) :
    Except AppError (Nat × DB) :=
  match input.customerId with
  | some cid =>
    match OrderRepository.findCustomerById db.customers cid with
    | none => .error createError.customerNotFound
    | some _ => .ok (cid, db)
  | none =>
    match input.customer with
    | some cust =>
      match OrderRepository.findCustomerByEmail db.customers cust.email with
      | some existing => .ok (existing.id, db)
      | none =>
        if cust.name = "" then .error createError.validationError
        else if cust.email = "" then .error createError.validationError
        else OrderRepository.createCustomer db cust.name cust.email
    | none => .error createError.validationError

/-- The item-preparation loop of `OrderService.create`: per item, unit
price as in the subtotal, `totalPrice = unitPrice * quantity` and a hard
coded line `discount` of 0.  (The source reads the product through a
non-null assertion; behind stock validation the `none` branch is
unreachable.) -/
def buildItemsData (products : List Product) : List OrderItemInput → Except AppError (List OrderItemRec)
  | [] => .ok []
  | item :: rest =>
    match OrderRepository.findProductById products item.productId with
    | none => .error createError.productNotFound
    | some p =>
      (buildItemsData products rest).map fun tail =>
        let unitPrice := item.unitPrice.getD p.price
        { productId := item.productId, quantity := item.quantity,
          unitPrice := unitPrice, totalPrice := unitPrice * (item.quantity : ℚ),
          discount := 0 } :: tail

/-- `OrderService.create`: stock validation (one aggregated
`PRODUCT_INSUFFICIENT_INVENTORY` failure listing nothing but built from
all collected violations), customer resolution, totals, order number,
then the transactional insert with stock decrement. -/
def create (db : DB) (input : CreateOrderInput) : Except AppError (OrderRec × DB) :=
  let stockValidation := validateStock db.products input.orderItems
  if !stockValidation.isValid then
    .error createError.insufficientInventory
  else
    match getOrCreateCustomer db input with
    | .error e => .error e
    | .ok (customerId, db1) =>
      match calculateOrderTotals db1.products input.orderItems
              input.shippingCost input.discount with
      | .error e => .error e
      | .ok calculation =>
        let orderNumber := OrderRepository.generateOrderNumber db1
        match buildItemsData db1.products input.orderItems with
        | .error e => .error e
        | .ok itemsData =>
          let orderData : OrderRec :=
            { id := 0, orderNumber := orderNumber, orderStatus := .PENDIENTE,
              customerId := customerId,
              subtotal := calculation.subtotal, taxAmount := calculation.taxAmount,
              shippingCost := calculation.shippingCost, discount := calculation.discount,
              totalAmount := calculation.totalAmount,
              notes := input.notes, customerNotes := input.customerNotes,
              shippingAddress := input.shippingAddress,
              billingAddress := input.billingAddress,
              trackingNumber := none, shippedAt := none, cancelledAt := none,
              cancellationReason := none, isDeleted := false, items := itemsData }
          .ok (OrderRepository.create db1 orderData)

/-- `OrderService.update`: load the order; when a different
`orderStatus` is requested, validate the transition; stamp `shippedAt`
when the requested status is `DESPACHADO` and `cancelledAt` (plus the
given cancellation reason) when it is `CANCELADO`; persist through the
repository. -/
def update (db : DB) (id : Nat) (input : UpdateOrderInput) :
    Except AppError (OrderRec × DB) :=
  match OrderRepository.findById db.orders id with
  | none => .error createError.orderNotFound
  | some currentOrder =>
    let transitionOk :=
      match input.orderStatus with
      | some st =>
        st == currentOrder.orderStatus ||
          validateStatusTransition currentOrder.orderStatus st
      | none => true
    if !transitionOk then
      .error createError.invalidStatusTransition
    else
      let updateData : UpdateOrderData :=
        { orderStatus := input.orderStatus
          notes := input.notes
          customerNotes := input.customerNotes
          shippingAddress := input.shippingAddress
          billingAddress := input.billingAddress
          trackingNumber := input.trackingNumber
          shippingCost := input.shippingCost
          discount := input.discount
          shippedAt := if input.orderStatus == some .DESPACHADO then some db.now else none
          cancelledAt := if input.orderStatus == some .CANCELADO then some db.now else none
          cancellationReason := input.cancellationReason }
      OrderRepository.update db id updateData

/-- `OrderService.updateStatus`: delegates to `update`, forwarding the
cancellation reason only for a `CANCELADO` request with a reason present
(the source guards with `reason &&`, so a JS-falsy empty string is also
dropped). -/
def updateStatus (db : DB) (id : Nat) (status : OrderStatus) (reason : Option String) :
    Except AppError (OrderRec × DB) :=
  update db id
    { orderStatus := some status
      cancellationReason :=
        if status == .CANCELADO then
          match reason with
          | some r => if r = "" then none else some r
          | none => none
        else none }

/-- `OrderService.cancel`: not-found check, already-cancelled check,
transition validation towards `CANCELADO`, then the transactional
`cancelOrder`. -/
def cancel (db : DB) (id : Nat) (reason : Option String) :
    Except AppError (OrderRec × DB) :=
  match OrderRepository.findById db.orders id with
  | none => .error createError.orderNotFound
  | some currentOrder =>
    if currentOrder.orderStatus = .CANCELADO then
      .error createError.orderAlreadyCancelled
    else if !(validateStatusTransition currentOrder.orderStatus .CANCELADO) then
      .error createError.invalidStatusTransition
    else
      OrderRepository.cancelOrder db id reason

end OrderService

/-! ## Product service layer -/

namespace ProductService

/-- `ProductService.reserveStock`: load (`getById`, excluding only
soft-deleted rows), fail `PRODUCT_INACTIVE` for a deactivated product,
fail `PRODUCT_INSUFFICIENT_INVENTORY` when `availableAmount < quantity`,
else decrement. -/
def reserveStock (db : DB) (id : Nat) (quantity : Int) :
    Except AppError (Product × DB) :=
  match ProductRepository.findById db.products id with
  | none => .error createError.productNotFound
  | some product =>
    if !product.isActive then
      .error { code := .PRODUCT_INACTIVE, layer := .service }
    else if product.availableAmount < quantity then
      .error createError.insufficientInventory
    else
      ProductRepository.decrementStock db id quantity

/-- `ProductService.restoreStock`: load, then set the stock to
`availableAmount + quantity` through `updateStock`. -/
def restoreStock (db : DB) (id : Nat) (quantity : Int) :
    Except AppError (Product × DB) :=
  match ProductRepository.findById db.products id with
  | none => .error createError.productNotFound
  | some product =>
    ProductRepository.updateStock db id (product.availableAmount + quantity)

end ProductService

/-! ## Order-item service layer -/

/-- `OrderItemCalculation` of `orderItem.types.ts`. -/
structure OrderItemCalculation where
  unitPrice : ℚ
  quantity : Int
  subtotal : ℚ
  discount : ℚ
  totalPrice : ℚ
  deriving DecidableEq, Repr

namespace OrderItemService

/-- `OrderItemService.calculateOrderItemTotals`:
`totalPrice = max(0, quantity * unitPrice - discount)` with a
caller-supplied discount (defaulting to 0 at the call site). -/
def calculateOrderItemTotals (quantity : Int) (unitPrice discount : ℚ) :
    OrderItemCalculation :=
  let subtotal := (quantity : ℚ) * unitPrice
  let totalPrice := subtotal - discount
  { unitPrice := unitPrice, quantity := quantity, subtotal := subtotal,
    discount := discount, totalPrice := max 0 totalPrice }

end OrderItemService

/-! ## Specification vocabulary

Pure functions used only to *state* properties about the embedded code
(never called by it). -/

/-- A requested item violates stock validation when the order
repository's product lookup misses (absent, soft-deleted or inactive
product) or the found product is short on stock. -/
def violatesStock (products : List Product) (item : OrderItemInput) : Bool :=
  match OrderRepository.findProductById products item.productId with
  | none => true
  | some p => decide (p.availableAmount < item.quantity)

/-- The stock-validation error entry a violating item contributes. -/
def stockEntryFor (products : List Product) (item : OrderItemInput) : StockErrorEntry :=
  match OrderRepository.findProductById products item.productId with
  | none =>
    { productId := item.productId, productName := "Unknown Product",
      requested := item.quantity, available := 0 }
  | some p =>
    { productId := item.productId, productName := p.name,
      requested := item.quantity, available := p.availableAmount }

/-- The effective unit price of a requested item: the requested price if
given, else the current price of the product the lookup finds. -/
def itemUnitPrice (products : List Product) (item : OrderItemInput) : ℚ :=
  match item.unitPrice with
  | some u => u
  | none => ((OrderRepository.findProductById products item.productId).map Product.price).getD 0

/-- The specified subtotal: sum over the requested items of effective
unit price times quantity. -/
def specSubtotal (products : List Product) (items : List OrderItemInput) : ℚ :=
  (items.map fun item => itemUnitPrice products item * (item.quantity : ℚ)).sum

/-- Total quantity an order's items hold of a given product. -/
def qtyFor (items : List OrderItemRec) (pid : Nat) : Int :=
  ((items.filter fun i => i.productId == pid).map fun i => i.quantity).sum

/-- The codes the transport mapping sends to the 404-equivalent. -/
def notFoundCodes : List ErrorCode :=
  [.ORDER_NOT_FOUND, .PRODUCT_NOT_FOUND, .PRODUCT_CATEGORY_NOT_FOUND,
   .CUSTOMER_NOT_FOUND, .NOTIFICATION_TEMPLATE_NOT_FOUND]

/-- The codes the transport mapping sends to the 409-equivalent. -/
def conflictCodes : List ErrorCode :=
  [.ORDER_ALREADY_CANCELLED, .ORDER_CANNOT_BE_MODIFIED,
   .ORDER_INVALID_STATUS_TRANSITION, .ORDER_ALREADY_SHIPPED,
   .ORDER_ALREADY_DELIVERED, .PRODUCT_OUT_OF_STOCK,
   .PRODUCT_INSUFFICIENT_INVENTORY, .PRODUCT_INACTIVE,
   .CUSTOMER_EMAIL_EXISTS, .CUSTOMER_INACTIVE,
   .DATABASE_CONSTRAINT_VIOLATION, .DATABASE_UNIQUE_CONSTRAINT,
   .DATABASE_FOREIGN_KEY_CONSTRAINT]

/-- The codes the transport mapping sends to the 400-equivalent. -/
def badRequestCodes : List ErrorCode :=
  [.ORDER_ITEMS_REQUIRED, .ORDER_TOTAL_MISMATCH, .PRODUCT_INVALID_QUANTITY,
   .PRODUCT_PRICE_INVALID, .CUSTOMER_INVALID_EMAIL,
   .CUSTOMER_MISSING_REQUIRED_FIELDS, .CUSTOMER_INVALID_PHONE,
   .NOTIFICATION_INVALID_RECIPIENT, .VALIDATION_INVALID_INPUT,
   .VALIDATION_REQUIRED_FIELD, .VALIDATION_INVALID_FORMAT,
   .VALIDATION_OUT_OF_RANGE, .VALIDATION_INVALID_ENUM,
   .VALIDATION_SCHEMA_ERROR]

/-- The codes the transport mapping sends to the 401-equivalent. -/
def unauthorizedCodes : List ErrorCode :=
  [.AUTH_UNAUTHORIZED, .AUTH_SESSION_EXPIRED, .AUTH_INVALID_TOKEN]

/-! ## Fixtures

Concrete database states and inputs instantiating the theorems. -/

namespace Fixtures

/-- Product P of the spec's example scenario: price 100000, stock 10. -/
def prodP : Product := ⟨1, "P", 100000, 10, true, false⟩

/-- Product Q of the spec's example scenario: price 25000, stock 50. -/
def prodQ : Product := ⟨2, "Q", 25000, 50, true, false⟩

/-- An existing, non-deleted customer. -/
def ana : Customer := ⟨1, "Ana", "ana@example.com", true, false⟩

/-- Base database: products P and Q, customer Ana, no orders. -/
def baseDB : DB := ⟨[prodP, prodQ], [ana], [], 2, 1, 1000, 2025⟩

/-- Create-order input of the example scenario: [P x 1, Q x 2] for the
existing customer, no shipping, no discount. -/
def exampleInput : CreateOrderInput :=
  { customerId := some 1, customer := none,
    orderItems := [⟨1, 1, none⟩, ⟨2, 2, none⟩],
    notes := none, customerNotes := none, shippingAddress := none,
    billingAddress := none, shippingCost := 0, discount := 0 }

/-- Input for the rounding counterexample: one unit of a product whose
price (10) makes `subtotal * 0.19` a non-integer. -/
def tinyDB : DB := ⟨[⟨1, "T", 10, 5, true, false⟩], [ana], [], 2, 1, 1000, 2025⟩

/-- One unit of product 1, existing customer. -/
def tinyInput : CreateOrderInput :=
  { customerId := some 1, customer := none, orderItems := [⟨1, 1, none⟩],
    notes := none, customerNotes := none, shippingAddress := none,
    billingAddress := none, shippingCost := 0, discount := 0 }

/-- A pending order over items [P x 2, Q x 3]. -/
def pendingOrder : OrderRec :=
  { id := 1, orderNumber := "ORD-2025-0001", orderStatus := .PENDIENTE,
    customerId := 1, subtotal := 350, taxAmount := 350 * TAX_RATE,
    shippingCost := 0, discount := 0, totalAmount := 350 + 350 * TAX_RATE,
    notes := none, customerNotes := none, shippingAddress := none,
    billingAddress := none, trackingNumber := none, shippedAt := none,
    cancelledAt := none, cancellationReason := none, isDeleted := false,
    items := [⟨1, 2, 100, 200, 0⟩, ⟨2, 3, 50, 150, 0⟩] }

/-- Database holding `pendingOrder` against two products with 5 units
available each (the cancellation example of the spec). -/
def pendingDB : DB :=
  ⟨[⟨1, "P", 100, 5, true, false⟩, ⟨2, "Q", 50, 5, true, false⟩],
   [ana], [pendingOrder], 2, 2, 1000, 2025⟩

/-- The same order already cancelled. -/
def cancelledOrder : OrderRec := { pendingOrder with orderStatus := .CANCELADO }

/-- Database holding the cancelled order. -/
def cancelledDB : DB := { pendingDB with orders := [cancelledOrder] }

/-- Input referencing a product id (9) that does not exist. -/
def missingProductInput : CreateOrderInput :=
  { customerId := some 1, customer := none, orderItems := [⟨9, 1, none⟩],
    notes := none, customerNotes := none, shippingAddress := none,
    billingAddress := none, shippingCost := 0, discount := 0 }

/-- A deactivated product that is also out of stock. -/
def inactiveShortDB : DB := ⟨[⟨1, "I", 100, 0, false, false⟩], [ana], [], 2, 1, 1000, 2025⟩

/-- Inline-customer input with a fresh email. -/
def inlineInput : CreateOrderInput :=
  { customerId := none, customer := some ⟨"Bob", "bob@example.com"⟩,
    orderItems := [⟨1, 1, none⟩],
    notes := none, customerNotes := none, shippingAddress := none,
    billingAddress := none, shippingCost := 0, discount := 0 }

end Fixtures

/-! ## General lemmas about the embedding -/

/-- `Except.map` hits `.ok` exactly when the argument does. -/
theorem exceptMapOk {ε α β : Type} (f : α → β) (x : Except ε α) (y : β) :
    x.map f = .ok y ↔ ∃ a, x = .ok a ∧ f a = y := by
  cases x <;> simp [Except.map]

/-- Under the committed (permissive) transition table, every transition
between two distinct statuses validates. -/
theorem validTransitionOfNe (a b : OrderStatus) (h : a ≠ b) :
    OrderService.validateStatusTransition a b = true := by
  revert h; cases a <;> cases b <;> decide

/-- No non-deleted customer carries the email, so the lookup misses. -/
theorem findCustomerByEmailNone (l : List Customer) (e : String)
    (h : ∀ c ∈ l, c.email ≠ e) :
    OrderRepository.findCustomerByEmail l e = none := by
  rw [OrderRepository.findCustomerByEmail, List.find?_eq_none]
  intro c hc
  simp [h c hc]

/-- Closed form of the stock-validation fold from any accumulator. -/
theorem validateStockFoldAux (products : List Product) (items : List OrderItemInput)
    (acc : StockValidationResult) :
    items.foldl (OrderService.validateStockStep products) acc =
      { isValid := acc.isValid && items.all (fun i => !violatesStock products i),
        errors := acc.errors ++
          (items.filter (violatesStock products)).map (stockEntryFor products) } := by
  induction items generalizing acc with
  | nil => simp
  | cons i rest ih =>
    rw [List.foldl_cons, ih]
    cases hp : OrderRepository.findProductById products i.productId with
    | none =>
      simp [OrderService.validateStockStep, List.filter_cons, violatesStock, hp,
        stockEntryFor]
    | some p =>
      by_cases hlt : p.availableAmount < i.quantity <;>
        simp [OrderService.validateStockStep, List.filter_cons, violatesStock, hp,
          stockEntryFor, hlt]

/-- `validateStock` is valid exactly on violation-free requests and its
error list is the violating items' entries, in request order. -/
theorem validateStockEq (products : List Product) (items : List OrderItemInput) :
    OrderService.validateStock products items =
      { isValid := items.all (fun i => !violatesStock products i),
        errors := (items.filter (violatesStock products)).map (stockEntryFor products) } := by
  rw [OrderService.validateStock, validateStockFoldAux]; rfl

/-- Stock restoration adds, to every product, the total quantity the
cancelled order's items hold of it. -/
theorem restoreProductsEq (items : List OrderItemRec) (ps : List Product) :
    OrderRepository.restoreProducts ps items =
      ps.map (fun p => { p with availableAmount := p.availableAmount + qtyFor items p.id }) := by
  induction items generalizing ps with
  | nil =>
    simp [OrderRepository.restoreProducts, qtyFor]
  | cons i rest ih =>
    have hstep : OrderRepository.restoreProducts ps (i :: rest) =
        OrderRepository.restoreProducts
          (ps.map fun p =>
            if p.id == i.productId then
              { p with availableAmount := p.availableAmount + i.quantity }
            else p)
          rest := rfl
    rw [hstep, ih, List.map_map]
    apply List.map_congr_left
    intro p _
    by_cases hid : i.productId = p.id
    · have hid2 : (p.id == i.productId) = true := by simp [hid]
      simp [Function.comp, qtyFor, List.filter_cons, hid, hid2, add_assoc]
    · have hid2 : (p.id == i.productId) = false := by
        simp only [beq_eq_false_iff_ne, ne_eq]
        exact fun hh => hid hh.symm
      have hid3 : (i.productId == p.id) = false := by
        simp only [beq_eq_false_iff_ne, ne_eq]
        exact hid
      simp [Function.comp, qtyFor, List.filter_cons, hid2, hid3]

/-- A successful subtotal computation returns the specified sum. -/
theorem subtotalOfOk (products : List Product) (items : List OrderItemInput) (s : ℚ)
    (h : OrderService.subtotalOf products items = .ok s) :
    s = specSubtotal products items := by
  induction items generalizing s with
  | nil =>
    simp [OrderService.subtotalOf] at h
    simp [specSubtotal, ← h]
  | cons i rest ih =>
    rw [OrderService.subtotalOf] at h
    cases hp : OrderRepository.findProductById products i.productId with
    | none => rw [hp] at h; exact absurd h (by simp)
    | some p =>
      rw [hp, exceptMapOk] at h
      obtain ⟨a, ha, hfa⟩ := h
      rw [specSubtotal, List.map_cons, List.sum_cons, ← hfa, ih a ha]
      cases hu : i.unitPrice <;> simp [itemUnitPrice, hu, hp, specSubtotal]

/-- Items built by the order-creation path carry a zero line discount
and a total of exactly unit price times quantity. -/
theorem buildItemsDataOk (products : List Product) (items : List OrderItemInput)
    (l : List OrderItemRec) (h : OrderService.buildItemsData products items = .ok l) :
    ∀ it ∈ l, it.discount = 0 ∧ it.totalPrice = it.unitPrice * (it.quantity : ℚ) := by
  induction items generalizing l with
  | nil =>
    simp [OrderService.buildItemsData] at h
    intro it hit
    rw [h] at hit
    cases hit
  | cons i rest ih =>
    rw [OrderService.buildItemsData] at h
    cases hp : OrderRepository.findProductById products i.productId with
    | none => rw [hp] at h; exact absurd h (by simp)
    | some p =>
      rw [hp, exceptMapOk] at h
      obtain ⟨tail, htail, hcons⟩ := h
      intro it hit
      rw [← hcons] at hit
      rcases List.mem_cons.mp hit with hhead | htl
      · subst hhead; exact ⟨rfl, rfl⟩
      · exact ih tail htail it htl

/-- Customer resolution touches nothing but the customers table and its
fresh-id counter. -/
theorem getOrCreateCustomerFrame (db : DB) (input : CreateOrderInput) (cid : Nat) (db1 : DB)
    (h : OrderService.getOrCreateCustomer db input = .ok (cid, db1)) :
    db1.products = db.products ∧ db1.orders = db.orders ∧ db1.now = db.now ∧
      db1.year = db.year ∧ db1.nextOrderId = db.nextOrderId := by
  rw [OrderService.getOrCreateCustomer] at h
  split at h
  · split at h
    · simp at h
    · simp only [Except.ok.injEq, Prod.mk.injEq] at h
      rw [← h.2]
      exact ⟨rfl, rfl, rfl, rfl, rfl⟩
  · split at h
    · split at h
      · simp only [Except.ok.injEq, Prod.mk.injEq] at h
        rw [← h.2]
        exact ⟨rfl, rfl, rfl, rfl, rfl⟩
      · split at h
        · simp at h
        · split at h
          · simp at h
          · rw [OrderRepository.createCustomer] at h
            split at h
            · simp at h
            · simp only [Except.ok.injEq, Prod.mk.injEq] at h
              rw [← h.2]
              exact ⟨rfl, rfl, rfl, rfl, rfl⟩
    · simp at h

/-- Anatomy of a successful order creation: the customer resolution, the
totals computation and the item preparation all succeeded, the stored
order carries exactly their outputs with status `PENDIENTE`, and the new
database appends the order and decrements the referenced stock. -/
theorem createOkElim (db : DB) (input : CreateOrderInput) (o : OrderRec) (db' : DB)
    (h : OrderService.create db input = .ok (o, db')) :
    ∃ cid db1 totals itemsData,
      OrderService.getOrCreateCustomer db input = .ok (cid, db1) ∧
      OrderService.calculateOrderTotals db1.products input.orderItems
          input.shippingCost input.discount = .ok totals ∧
      OrderService.buildItemsData db1.products input.orderItems = .ok itemsData ∧
      o.customerId = cid ∧ o.orderStatus = .PENDIENTE ∧
      o.subtotal = totals.subtotal ∧ o.taxAmount = totals.taxAmount ∧
      o.shippingCost = totals.shippingCost ∧ o.discount = totals.discount ∧
      o.totalAmount = totals.totalAmount ∧ o.items = itemsData ∧
      db'.customers = db1.customers ∧ db'.orders = db1.orders ++ [o] ∧
      db'.products = OrderRepository.decrementProducts db1.products itemsData := by
  rw [OrderService.create] at h
  split at h
  · simp at h
  · split at h
    · simp at h
    · split at h
      · simp at h
      · split at h
        · simp at h
        · rename_i x1 cid db1 hcust x2 totals hcalc x3 itemsData hitems
          simp only [Except.ok.injEq] at h
          refine ⟨cid, db1, totals, itemsData, hcust, hcalc, hitems, ?_⟩
          have h1 := congrArg Prod.fst h
          have h2 := congrArg Prod.snd h
          simp only [] at h1 h2
          rw [← h1, ← h2]
          simp [OrderRepository.create]

/-- A failed stock validation makes `create` fail with the aggregated
insufficient-inventory error, whatever the failure mix. -/
theorem createStockInvalid (db : DB) (input : CreateOrderInput)
    (h : (OrderService.validateStock db.products input.orderItems).isValid = false) :
    OrderService.create db input = .error createError.insufficientInventory := by
  rw [OrderService.create]
  simp [h]

/-- When the inline customer's email belongs to a known non-deleted
customer, resolution returns that customer's id and leaves the database
untouched. -/
theorem getOrCreateCustomerReuse (db : DB) (input : CreateOrderInput)
    (cust : CreateCustomerInput) (c : Customer)
    (hid : input.customerId = none) (hc : input.customer = some cust)
    (hmail : OrderRepository.findCustomerByEmail db.customers cust.email = some c) :
    OrderService.getOrCreateCustomer db input = .ok (c.id, db) := by
  simp [OrderService.getOrCreateCustomer, hid, hc, hmail]

/-- When the inline customer's email is unknown and resolution succeeds,
it has inserted exactly one fresh customer with that name and email. -/
theorem getOrCreateCustomerInsert (db : DB) (input : CreateOrderInput)
    (cust : CreateCustomerInput) (cid : Nat) (db1 : DB)
    (hid : input.customerId = none) (hc : input.customer = some cust)
    (hmail : OrderRepository.findCustomerByEmail db.customers cust.email = none)
    (h : OrderService.getOrCreateCustomer db input = .ok (cid, db1)) :
    cid = db.nextCustomerId ∧
      db1.customers =
        db.customers ++ [⟨db.nextCustomerId, cust.name, cust.email, true, false⟩] := by
  simp only [OrderService.getOrCreateCustomer, hid, hc, hmail] at h
  split at h
  · simp at h
  · split at h
    · simp at h
    · rw [OrderRepository.createCustomer] at h
      split at h
      · simp at h
      · simp only [Except.ok.injEq, Prod.mk.injEq] at h
        exact ⟨h.1.symm, by rw [← h.2]⟩

/-- Appending a non-deleted customer with the sought email behind a list
in which the lookup misses makes the lookup find it. -/
theorem findCustomerByEmailAppend (l : List Customer) (c : Customer) (e : String)
    (hnone : OrderRepository.findCustomerByEmail l e = none)
    (hc : c.email = e) (hdel : c.isDeleted = false) :
    OrderRepository.findCustomerByEmail (l ++ [c]) e = some c := by
  rw [OrderRepository.findCustomerByEmail] at hnone ⊢
  rw [List.find?_append, hnone]
  simp [hc, hdel]

/-- With pairwise-unique product ids, the id-only lookup used by the
stock writes agrees with the id-and-not-deleted lookup of the reads. -/
theorem findIdOfUnique (ps : List Product) (i : Nat) (p : Product)
    (hu : ∀ a ∈ ps, ∀ b ∈ ps, a.id = b.id → a = b)
    (h : ProductRepository.findById ps i = some p) :
    ps.find? (fun x => x.id == i) = some p := by
  rw [ProductRepository.findById] at h
  have hpred := List.find?_some h
  have hmem := List.mem_of_find?_eq_some h
  simp only [Bool.and_eq_true, beq_iff_eq] at hpred
  induction ps with
  | nil => cases hmem
  | cons x rest ih =>
    by_cases hx : x.id = i
    · have hxp : x = p := hu x (by simp) p hmem (by rw [hx, hpred.1])
      rw [List.find?_cons_of_pos _ (by simp [hx]), hxp]
    · have hmem2 : p ∈ rest := by
        rcases List.mem_cons.mp hmem with hxx | hr
        · exact absurd (hxx ▸ hpred.1) hx
        · exact hr
      have h2 : rest.find? (fun q => q.id == i && !q.isDeleted) = some p := by
        rw [List.find?_cons_of_neg _ (by simp [hx])] at h
        exact h
      rw [List.find?_cons_of_neg _ (by simp [hx])]
      exact ih (fun a ha b hb => hu a (List.mem_cons_of_mem _ ha) b (List.mem_cons_of_mem _ hb))
        h2 hmem2

/-! ## Claim theorems -/

/-- C8, counterexample: the committed mapping is not a partition into
the four claimed categories — `NOTIFICATION_RATE_LIMITED` goes to the
429-equivalent (not the claimed 500), `DATABASE_TIMEOUT` to a timeout
code, and the notification code `NOTIFICATION_INVALID_RECIPIENT` goes to
the 400-equivalent instead of the claimed 500. -/
theorem error_mapping_four_categories_cx :
    convertAppErrorToTRPCError ⟨.NOTIFICATION_RATE_LIMITED, .service⟩ = .TOO_MANY_REQUESTS ∧
    convertAppErrorToTRPCError ⟨.NOTIFICATION_RATE_LIMITED, .service⟩ ∉
      ([.NOT_FOUND, .CONFLICT, .BAD_REQUEST, .INTERNAL_SERVER_ERROR] : List TRPCCode) ∧
    convertAppErrorToTRPCError ⟨.DATABASE_TIMEOUT, .repository⟩ = .TIMEOUT ∧
    convertAppErrorToTRPCError ⟨.NOTIFICATION_INVALID_RECIPIENT, .service⟩ ≠
      .INTERNAL_SERVER_ERROR := by
  decide

/-- C8 (amended): the mapping is a total function on the closed error
taxonomy, but it partitions the codes into EIGHT transport codes, not
four: the not-found codes go to the 404-equivalent, the
conflict/inventory/duplicate codes to the 409-equivalent, the
validation-style codes (including two notification codes) to the
400-equivalent, three auth codes to the 401-equivalent and one to the
403-equivalent, `NOTIFICATION_RATE_LIMITED` to the 429-equivalent,
`DATABASE_TIMEOUT` to a timeout code, and everything else to the
500-equivalent. -/
theorem convertAppError_total_map :
    ∀ e : AppError,
      convertAppErrorToTRPCError e =
        (if e.code ∈ notFoundCodes then .NOT_FOUND
         else if e.code ∈ conflictCodes then .CONFLICT
         else if e.code ∈ badRequestCodes then .BAD_REQUEST
         else if e.code ∈ unauthorizedCodes then .UNAUTHORIZED
         else if e.code = .AUTH_FORBIDDEN then .FORBIDDEN
         else if e.code = .NOTIFICATION_RATE_LIMITED then .TOO_MANY_REQUESTS
         else if e.code = .DATABASE_TIMEOUT then .TIMEOUT
         else .INTERNAL_SERVER_ERROR) := by
  intro e
  obtain ⟨c, l⟩ := e
  cases c <;> rfl

/-- C1, counterexample: under the committed transition table a direct
PENDIENTE→DESPACHADO `updateStatus` succeeds (the claim demands an
invalid-transition failure), and a CANCELADO order moves back to
PENDIENTE (the claim demands every transition out of CANCELADO to
fail). -/
theorem restricted_policy_cx :
    ((OrderService.updateStatus Fixtures.pendingDB 1 .DESPACHADO none).map
        (fun x => x.1.orderStatus) = .ok .DESPACHADO) ∧
    ((OrderService.updateStatus Fixtures.cancelledDB 1 .PENDIENTE none).map
        (fun x => x.1.orderStatus) = .ok .PENDIENTE) ∧
    OrderService.validateStatusTransition .PENDIENTE .DESPACHADO = true ∧
    OrderService.validateStatusTransition .CANCELADO .PROCESANDO = true := by
  exact ⟨rfl, rfl, rfl, rfl⟩

/-- C1 (amended): the committed `ORDER_STATUS_TRANSITIONS` table allows
every transition between two distinct statuses (and a same-status
request skips validation), so `updateStatus` on any existing non-deleted
order succeeds for ANY target status — in particular PENDIENTE→DESPACHADO
directly, the PENDIENTE→PROCESANDO→DESPACHADO chain, and every
transition out of CANCELADO. -/
theorem updateStatus_any_transition (db : DB) (id : Nat) (st : OrderStatus)
    (reason : Option String) (o : OrderRec)
    (h : OrderRepository.findById db.orders id = some o) :
    ∃ o' db', OrderService.updateStatus db id st reason = .ok (o', db') ∧
      o'.orderStatus = st := by
  have htrans : (st == o.orderStatus ||
      OrderService.validateStatusTransition o.orderStatus st) = true := by
    by_cases heq : st = o.orderStatus
    · simp [heq]
    · simp [validTransitionOfNe o.orderStatus st (fun hh => heq hh.symm)]
  simp only [OrderService.updateStatus.eq_def, OrderService.update, h, htrans,
    OrderRepository.update, Bool.not_true, Bool.false_eq_true, if_false]
  exact ⟨_, _, rfl, by simp [OrderRepository.applyUpdateData]⟩

/-- C1, witness: the PENDIENTE fixture order moves straight to
DESPACHADO. -/
theorem updateStatus_any_transition_witness :
    OrderRepository.findById Fixtures.pendingDB.orders 1 = some Fixtures.pendingOrder ∧
    (∃ o' db', OrderService.updateStatus Fixtures.pendingDB 1 .DESPACHADO none = .ok (o', db') ∧
      o'.orderStatus = .DESPACHADO) :=
  ⟨rfl, updateStatus_any_transition Fixtures.pendingDB 1 .DESPACHADO none
    Fixtures.pendingOrder rfl⟩

/-- C6: a successful `update` — hence any successful `updateStatus`,
cancellations included — rewrites only the order row: the products table
(in particular every `availableAmount`) and the customers table are
untouched. -/
theorem update_products_frame (db : DB) (id : Nat) :
    (∀ input o' db', OrderService.update db id input = .ok (o', db') →
        db'.products = db.products ∧ db'.customers = db.customers) ∧
    (∀ st reason o' db', OrderService.updateStatus db id st reason = .ok (o', db') →
        db'.products = db.products ∧ db'.customers = db.customers) := by
  have main : ∀ input o' db', OrderService.update db id input = .ok (o', db') →
      db'.products = db.products ∧ db'.customers = db.customers := by
    intro input o' db' h
    rw [OrderService.update] at h
    cases hf : OrderRepository.findById db.orders id with
    | none =>
      simp only [hf] at h
      exact absurd h (by simp)
    | some cur =>
      simp only [hf] at h
      cases hcond : (!(match input.orderStatus with
          | some st => st == cur.orderStatus ||
              OrderService.validateStatusTransition cur.orderStatus st
          | none => true)) with
      | true =>
        simp only [hcond] at h
        simp at h
      | false =>
        simp [hcond, OrderRepository.update, hf, -Prod.mk.injEq] at h
        simp only [Prod.ext_iff] at h
        rw [← h.2]
        exact ⟨rfl, rfl⟩
  refine ⟨main, fun st reason o' db' h => ?_⟩
  rw [OrderService.updateStatus.eq_def] at h
  exact main _ _ _ h

/-- C6, witness: cancelling the fixture order through `updateStatus`
leaves both products' stock untouched. -/
theorem update_products_frame_witness :
    ∃ o' db', OrderService.updateStatus Fixtures.pendingDB 1 .CANCELADO (some "w") = .ok (o', db') ∧
      db'.products = Fixtures.pendingDB.products ∧
      db'.customers = Fixtures.pendingDB.customers := by
  refine ⟨_, _, rfl, ?_, ?_⟩
  · exact ((update_products_frame Fixtures.pendingDB 1).2 .CANCELADO (some "w") _ _ rfl).1
  · exact ((update_products_frame Fixtures.pendingDB 1).2 .CANCELADO (some "w") _ _ rfl).2

/-- C10: requesting the order's current status through `update` skips
transition validation and succeeds; and EVERY successful update that
requests DESPACHADO — a genuine transition into it just as much as a
request on an already-shipped order — overwrites `shippedAt` with the
clock, and every successful update requesting CANCELADO (a repeated
request included) overwrites `cancelledAt` and — when one is supplied —
the cancellation reason. -/
theorem update_same_status_spec (db : DB) (id : Nat) (input : UpdateOrderInput) (o : OrderRec)
    (h : OrderRepository.findById db.orders id = some o) :
    (input.orderStatus = some o.orderStatus →
       ∃ o' db', OrderService.update db id input = .ok (o', db')) ∧
    (∀ o' db', OrderService.update db id input = .ok (o', db') →
       (input.orderStatus = some .DESPACHADO → o'.shippedAt = some db.now) ∧
       (input.orderStatus = some .CANCELADO → o'.cancelledAt = some db.now ∧
         o'.cancellationReason = (match input.cancellationReason with
           | some r => some r
           | none => o.cancellationReason))) := by
  constructor
  · intro hst
    have hto : (o.orderStatus == o.orderStatus ||
        OrderService.validateStatusTransition o.orderStatus o.orderStatus) = true := by
      simp
    simp only [OrderService.update, h, hst, hto, Bool.not_true, Bool.false_eq_true,
      if_false, OrderRepository.update]
    exact ⟨_, _, rfl⟩
  · intro o' db' hupd
    rw [OrderService.update] at hupd
    simp only [h] at hupd
    cases hcond : (!(match input.orderStatus with
        | some st => st == o.orderStatus ||
            OrderService.validateStatusTransition o.orderStatus st
        | none => true)) with
    | true =>
      simp only [hcond] at hupd
      simp at hupd
    | false =>
      simp [hcond, OrderRepository.update, h, -Prod.mk.injEq] at hupd
      simp only [Prod.ext_iff] at hupd
      obtain ⟨ho', -⟩ := hupd
      constructor
      · intro hd
        rw [← ho']
        simp [OrderRepository.applyUpdateData, hd]
      · intro hc
        rw [← ho']
        constructor
        · simp [OrderRepository.applyUpdateData, hc]
        · cases hr : input.cancellationReason <;>
            simp [OrderRepository.applyUpdateData, hr]

/-- C10, witness: a repeated CANCELADO request on the already-cancelled
fixture order succeeds and overwrites `cancelledAt` and the reason; and
a genuine PENDIENTE→DESPACHADO transition stamps `shippedAt` with the
clock. -/
theorem update_same_status_spec_witness :
    (∃ o' db', OrderService.update Fixtures.cancelledDB 1
        { orderStatus := some .CANCELADO, cancellationReason := some "again" } = .ok (o', db') ∧
      o'.cancelledAt = some 1000 ∧ o'.cancellationReason = some "again") ∧
    (∃ o' db', OrderService.update Fixtures.pendingDB 1
        { orderStatus := some .DESPACHADO } = .ok (o', db') ∧
      o'.shippedAt = some 1000) := by
  constructor
  · obtain ⟨hsucc, hstamp⟩ := update_same_status_spec Fixtures.cancelledDB 1
      { orderStatus := some .CANCELADO, cancellationReason := some "again" }
      Fixtures.cancelledOrder rfl
    obtain ⟨o', db', hEq⟩ := hsucc rfl
    obtain ⟨-, hC⟩ := hstamp o' db' hEq
    obtain ⟨hAt, hR⟩ := hC rfl
    exact ⟨o', db', hEq, hAt, by rw [hR]⟩
  · obtain ⟨-, hstamp⟩ := update_same_status_spec Fixtures.pendingDB 1
      { orderStatus := some .DESPACHADO } Fixtures.pendingOrder rfl
    refine ⟨_, _, rfl, ?_⟩
    exact (hstamp _ _ rfl).1 rfl

/-- C2, counterexample: on a one-item order with unit price 10 the
stored tax is `10 * 0.19 = 1.9` exactly — the code never rounds, so
`taxAmount ≠ round(subtotal * 0.19) = 2`. -/
theorem create_tax_not_rounded_cx :
    (∃ o db', OrderService.create Fixtures.tinyDB Fixtures.tinyInput = .ok (o, db') ∧
        o.subtotal = 10 ∧ o.taxAmount = 19/10) ∧
    (19 : ℚ)/10 ≠ ((round ((10 : ℚ) * TAX_RATE) : ℤ) : ℚ) := by
  constructor
  · refine ⟨_, _, rfl, ?_, ?_⟩
    · norm_num
    · norm_num [TAX_RATE]
  · rw [show ((round ((10 : ℚ) * TAX_RATE) : ℤ) : ℚ) = 2 by norm_num [TAX_RATE, round_eq]]
    norm_num

/-- C2 (amended): for every successfully created order, the stored
subtotal is the sum over the items of effective unit price times
quantity, `taxAmount = subtotal * 0.19` EXACTLY (no rounding), and
`totalAmount = subtotal + taxAmount + shippingCost - discount`
exactly. -/
theorem create_totals_exact (db : DB) (input : CreateOrderInput) (o : OrderRec) (db' : DB)
    (h : OrderService.create db input = .ok (o, db')) :
    o.subtotal = specSubtotal db.products input.orderItems ∧
    o.taxAmount = o.subtotal * TAX_RATE ∧
    o.totalAmount = o.subtotal + o.taxAmount + input.shippingCost - input.discount ∧
    o.shippingCost = input.shippingCost ∧ o.discount = input.discount := by
  obtain ⟨cid, dbA, totals, itemsData, hcust, hcalc, hitems, hocid, hostat, hsub, htax,
    hship, hdisc, htot, hoitems, hdbcust, hdbord, hdbprod⟩ := createOkElim db input o db' h
  rw [OrderService.calculateOrderTotals, exceptMapOk] at hcalc
  obtain ⟨s, hs, hf⟩ := hcalc
  have hpr : dbA.products = db.products := (getOrCreateCustomerFrame db input cid dbA hcust).1
  have hspec : s = specSubtotal db.products input.orderItems := by
    have := subtotalOfOk dbA.products input.orderItems s hs
    rwa [hpr] at this
  have hts : totals.subtotal = s := by rw [← hf]
  have htt : totals.taxAmount = s * TAX_RATE := by rw [← hf]
  have hsh : totals.shippingCost = input.shippingCost := by rw [← hf]
  have hd : totals.discount = input.discount := by rw [← hf]
  have htm : totals.totalAmount = s + s * TAX_RATE + input.shippingCost - input.discount := by
    rw [← hf]
  refine ⟨?_, ?_, ?_, ?_, ?_⟩
  · rw [hsub, hts, hspec]
  · rw [htax, htt, hsub, hts]
  · rw [htot, htm, hsub, hts, htax, htt]
  · rw [hship, hsh]
  · rw [hdisc, hd]

/-- C2, witness: the spec's example scenario — subtotal 150000, tax
28500, total 178500. -/
theorem create_totals_exact_witness :
    ∃ o db', OrderService.create Fixtures.baseDB Fixtures.exampleInput = .ok (o, db') ∧
      o.subtotal = 150000 ∧ o.taxAmount = o.subtotal * TAX_RATE ∧
      o.totalAmount = o.subtotal + o.taxAmount +
        Fixtures.exampleInput.shippingCost - Fixtures.exampleInput.discount := by
  refine ⟨_, _, rfl, ?_, ?_, ?_⟩
  · norm_num [Fixtures.prodP, Fixtures.prodQ]
  · exact (create_totals_exact Fixtures.baseDB Fixtures.exampleInput _ _ rfl).2.1
  · exact (create_totals_exact Fixtures.baseDB Fixtures.exampleInput _ _ rfl).2.2.1

/-- C9: every item produced by the main `OrderService.create` path has
line discount exactly 0 and `totalPrice = unitPrice * quantity`, so with
a non-negative price and quantity the floor-at-zero never changes it;
the standalone `OrderItemService.calculateOrderItemTotals` is the only
place computing `max(0, quantity * unitPrice - discount)` with a
caller-supplied discount. -/
theorem order_item_totals_spec (db : DB) (input : CreateOrderInput) (o : OrderRec) (db' : DB)
    (h : OrderService.create db input = .ok (o, db')) :
    (∀ it ∈ o.items, it.discount = 0 ∧ it.totalPrice = it.unitPrice * (it.quantity : ℚ) ∧
       (0 ≤ it.unitPrice → 0 ≤ it.quantity →
          max 0 ((it.quantity : ℚ) * it.unitPrice - it.discount) = it.totalPrice)) ∧
    (∀ (q : Int) (u d : ℚ),
        (OrderItemService.calculateOrderItemTotals q u d).totalPrice = max 0 ((q : ℚ) * u - d) ∧
        (OrderItemService.calculateOrderItemTotals q u d).discount = d) := by
  constructor
  · obtain ⟨cid, dbA, totals, itemsData, hcust, hcalc, hitems, hocid, hostat, hsub, htax,
      hship, hdisc, htot, hoitems, hdbcust, hdbord, hdbprod⟩ := createOkElim db input o db' h
    intro it hit
    rw [hoitems] at hit
    obtain ⟨hd, htp⟩ := buildItemsDataOk dbA.products input.orderItems itemsData hitems it hit
    refine ⟨hd, htp, fun hu hq => ?_⟩
    rw [hd, htp, sub_zero]
    have hnn : (0 : ℚ) ≤ (it.quantity : ℚ) * it.unitPrice :=
      mul_nonneg (by exact_mod_cast hq) hu
    rw [max_eq_right hnn, mul_comm]
  · intro q u d
    exact ⟨rfl, rfl⟩

/-- C9, witness: the example order's items have zero discount and exact
unit-price-times-quantity totals; the standalone computation floors at
zero. -/
theorem order_item_totals_spec_witness :
    ∃ o db', OrderService.create Fixtures.baseDB Fixtures.exampleInput = .ok (o, db') ∧
      (∀ it ∈ o.items, it.discount = 0 ∧ it.totalPrice = it.unitPrice * (it.quantity : ℚ)) ∧
      (OrderItemService.calculateOrderItemTotals 2 100 500).totalPrice =
        max 0 (((2 : ℤ) : ℚ) * 100 - 500) := by
  refine ⟨_, _, rfl, fun it hit => ?_, ?_⟩
  · obtain ⟨h1, h2, -⟩ :=
      (order_item_totals_spec Fixtures.baseDB Fixtures.exampleInput _ _ rfl).1 it hit
    exact ⟨h1, h2⟩
  · exact ((order_item_totals_spec Fixtures.baseDB Fixtures.exampleInput _ _ rfl).2 2 100 500).1

/-- C4, counterexample: creating an order whose single item references a
non-existent product fails with `PRODUCT_INSUFFICIENT_INVENTORY`, not
with the claimed `PRODUCT_NOT_FOUND` — `create` folds the missing
product into the aggregated stock-validation failure. -/
theorem create_missing_product_code_cx :
    OrderRepository.findProductById Fixtures.baseDB.products 9 = none ∧
    OrderService.create Fixtures.baseDB Fixtures.missingProductInput =
      .error ⟨.PRODUCT_INSUFFICIENT_INVENTORY, .service⟩ ∧
    OrderService.create Fixtures.baseDB Fixtures.missingProductInput ≠
      .error ⟨.PRODUCT_NOT_FOUND, .service⟩ := by
  refine ⟨rfl, rfl, ?_⟩
  intro hcontra
  rw [show OrderService.create Fixtures.baseDB Fixtures.missingProductInput =
      .error ⟨.PRODUCT_INSUFFICIENT_INVENTORY, .service⟩ from rfl] at hcontra
  exact absurd (Except.error.inj hcontra) (by decide)

/-- C4 (amended): `validateStock` walks every requested item and its
error list is exactly the violating items' entries in request order (so
all violations are collected before failing); validity holds exactly
when no item violates; and whenever some item's product is missing,
soft-deleted, inactive, or short on stock, `create` fails — with the
single aggregated `PRODUCT_INSUFFICIENT_INVENTORY` error in every one of
those cases, `PRODUCT_NOT_FOUND` never escaping this path. -/
theorem create_stock_failure_spec (db : DB) (input : CreateOrderInput) :
    ((OrderService.validateStock db.products input.orderItems).errors =
        (input.orderItems.filter (violatesStock db.products)).map (stockEntryFor db.products)) ∧
    ((OrderService.validateStock db.products input.orderItems).isValid = true ↔
        ∀ i ∈ input.orderItems, violatesStock db.products i = false) ∧
    ((∃ i ∈ input.orderItems, violatesStock db.products i = true) →
        OrderService.create db input = .error createError.insufficientInventory) := by
  refine ⟨?_, ?_, ?_⟩
  · rw [validateStockEq]
  · rw [validateStockEq]
    simp [List.all_eq_true]
  · rintro ⟨i, hi, hv⟩
    apply createStockInvalid
    rw [validateStockEq]
    cases hall : input.orderItems.all (fun i => !violatesStock db.products i)
    · rfl
    · rw [List.all_eq_true] at hall
      have := hall i hi
      simp [hv] at this

/-- C4, witness: the missing-product request violates stock validation
and `create` fails with the aggregated insufficient-inventory error. -/
theorem create_stock_failure_spec_witness :
    (∃ i ∈ Fixtures.missingProductInput.orderItems,
        violatesStock Fixtures.baseDB.products i = true) ∧
    OrderService.create Fixtures.baseDB Fixtures.missingProductInput =
      .error createError.insufficientInventory := by
  have hmem : (⟨9, 1, none⟩ : OrderItemInput) ∈ Fixtures.missingProductInput.orderItems := by
    simp [Fixtures.missingProductInput]
  have hv : violatesStock Fixtures.baseDB.products ⟨9, 1, none⟩ = true := rfl
  exact ⟨⟨⟨9, 1, none⟩, hmem, hv⟩,
    (create_stock_failure_spec Fixtures.baseDB Fixtures.missingProductInput).2.2
      ⟨⟨9, 1, none⟩, hmem, hv⟩⟩

/-- C5, counterexample: on a deactivated product that is also short on
stock, `reserveStock` fails with `PRODUCT_INACTIVE`, not with the
claimed `PRODUCT_INSUFFICIENT_INVENTORY` — the inactive check runs
first. -/
theorem reserve_inactive_priority_cx :
    (∀ p ∈ Fixtures.inactiveShortDB.products, p.availableAmount < 1) ∧
    ProductService.reserveStock Fixtures.inactiveShortDB 1 1 =
      .error ⟨.PRODUCT_INACTIVE, .service⟩ ∧
    ProductService.reserveStock Fixtures.inactiveShortDB 1 1 ≠
      .error createError.insufficientInventory := by
  refine ⟨by decide, rfl, ?_⟩
  intro hcontra
  rw [show ProductService.reserveStock Fixtures.inactiveShortDB 1 1 =
      .error ⟨.PRODUCT_INACTIVE, .service⟩ from rfl] at hcontra
  exact absurd (Except.error.inj hcontra) (by decide)

/-- C5 (amended): for a product the repository finds (ids unique):
a deactivated product makes `reserveStock` fail with `PRODUCT_INACTIVE`
(this check has priority); an active product short on stock makes it
fail with `PRODUCT_INSUFFICIENT_INVENTORY` — and every failure returns
no new state, leaving `availableAmount` unchanged; an active product
with enough stock is decremented by the quantity; and `restoreStock`
increments by the quantity. -/
theorem reserveStock_restoreStock_spec (db : DB) (id : Nat) (qty : Int) (p : Product)
    (h : ProductRepository.findById db.products id = some p)
    (hu : ∀ a ∈ db.products, ∀ b ∈ db.products, a.id = b.id → a = b) :
    (p.isActive = false →
        ProductService.reserveStock db id qty = .error ⟨.PRODUCT_INACTIVE, .service⟩) ∧
    (p.isActive = true → p.availableAmount < qty →
        ProductService.reserveStock db id qty = .error createError.insufficientInventory) ∧
    (p.isActive = true → qty ≤ p.availableAmount →
        ∃ p' db', ProductService.reserveStock db id qty = .ok (p', db') ∧
          p'.id = p.id ∧ p'.availableAmount = p.availableAmount - qty) ∧
    (∃ p' db', ProductService.restoreStock db id qty = .ok (p', db') ∧
        p'.id = p.id ∧ p'.availableAmount = p.availableAmount + qty) := by
  have hfind := findIdOfUnique db.products id p hu h
  refine ⟨?_, ?_, ?_, ?_⟩
  · intro hin
    simp [ProductService.reserveStock, h, hin]
  · intro hact hlt
    simp [ProductService.reserveStock, h, hact, hlt]
  · intro hact hge
    have hnlt : (p.availableAmount < qty) = False := eq_false (not_lt.mpr hge)
    simp only [ProductService.reserveStock, h, hact, Bool.not_true, Bool.false_eq_true,
      if_false, hnlt, ProductRepository.decrementStock, hfind]
    exact ⟨_, _, rfl, rfl, rfl⟩
  · simp only [ProductService.restoreStock, h, ProductRepository.updateStock, hfind]
    exact ⟨_, _, rfl, rfl, rfl⟩

/-- C5, witness: reserving 3 of product P (stock 10) leaves 7; restoring
3 yields 13; and the inactive fixture product fails with
`PRODUCT_INACTIVE`. -/
theorem reserveStock_restoreStock_spec_witness :
    (∃ p' db', ProductService.reserveStock Fixtures.baseDB 1 3 = .ok (p', db') ∧
        p'.id = Fixtures.prodP.id ∧ p'.availableAmount = Fixtures.prodP.availableAmount - 3) ∧
    (∃ p' db', ProductService.restoreStock Fixtures.baseDB 1 3 = .ok (p', db') ∧
        p'.id = Fixtures.prodP.id ∧ p'.availableAmount = Fixtures.prodP.availableAmount + 3) := by
  have hu : ∀ a ∈ Fixtures.baseDB.products, ∀ b ∈ Fixtures.baseDB.products,
      a.id = b.id → a = b := by decide
  obtain ⟨-, -, h3, h4⟩ :=
    reserveStock_restoreStock_spec Fixtures.baseDB 1 3 Fixtures.prodP rfl hu
  exact ⟨h3 rfl (by decide), h4⟩

/-- C3: on an existing order that is not yet cancelled, `cancel`
succeeds, stores status CANCELADO with a non-null `cancelledAt` (the
clock) and the given reason, and increments every product's
`availableAmount` by the total quantity the order's items hold of it;
on an already-cancelled order it fails with `ORDER_ALREADY_CANCELLED`
and returns no new state, changing nothing. -/
theorem cancel_spec (db : DB) (id : Nat) (reason : Option String) (o : OrderRec)
    (h : OrderRepository.findById db.orders id = some o) :
    (o.orderStatus ≠ .CANCELADO →
       ∃ o' db', OrderService.cancel db id reason = .ok (o', db') ∧
         o'.orderStatus = .CANCELADO ∧ o'.cancelledAt = some db.now ∧
         (∀ r, reason = some r → o'.cancellationReason = some r) ∧
         db'.products = db.products.map (fun p =>
           { p with availableAmount := p.availableAmount + qtyFor o.items p.id }) ∧
         db'.customers = db.customers) ∧
    (o.orderStatus = .CANCELADO →
       OrderService.cancel db id reason = .error createError.orderAlreadyCancelled) := by
  constructor
  · intro hne
    have hval : OrderService.validateStatusTransition o.orderStatus .CANCELADO = true :=
      validTransitionOfNe _ _ hne
    have hnec : (o.orderStatus = OrderStatus.CANCELADO) = False := eq_false hne
    have hneT : (o.orderStatus ≠ OrderStatus.CANCELADO) = True := eq_true hne
    simp only [OrderService.cancel, h, hnec, if_false, hval, Bool.not_true,
      Bool.false_eq_true, OrderRepository.cancelOrder, hneT, if_true]
    refine ⟨_, _, rfl, rfl, rfl, ?_, ?_, rfl⟩
    · intro r hr
      simp [hr]
    · exact restoreProductsEq o.items db.products
  · intro hc
    simp [OrderService.cancel, h, hc]

/-- C3, witness: cancelling the pending fixture order (items [2, 3]
against stock [5, 5]) yields status CANCELADO, `cancelledAt` set to the
clock, the given reason, and stock [7, 8]. -/
theorem cancel_spec_witness :
    ∃ o' db', OrderService.cancel Fixtures.pendingDB 1 (some "why") = .ok (o', db') ∧
      o'.orderStatus = .CANCELADO ∧ o'.cancelledAt = some 1000 ∧
      o'.cancellationReason = some "why" ∧
      db'.products.map (fun p => p.availableAmount) = [7, 8] := by
  obtain ⟨hsucc, -⟩ := cancel_spec Fixtures.pendingDB 1 (some "why") Fixtures.pendingOrder rfl
  obtain ⟨o', db', hEq, h1, h2, h3, h4, -⟩ := hsucc (by decide)
  refine ⟨o', db', hEq, h1, h2, h3 "why" rfl, ?_⟩
  rw [h4]
  decide

/-- C7: resolving an order's inline customer by an email an existing
non-deleted customer already carries reuses that customer's id and
inserts no customer row; hence two successive creations against the same
previously-unknown email attach both orders to one customer id — the
second inserts no duplicate. -/
theorem customer_dedup_spec (db : DB) (input1 input2 : CreateOrderInput)
    (cust1 cust2 : CreateCustomerInput)
    (h1 : input1.customerId = none) (hc1 : input1.customer = some cust1)
    (h2 : input2.customerId = none) (hc2 : input2.customer = some cust2)
    (hemail : cust2.email = cust1.email) :
    (∀ c, OrderRepository.findCustomerByEmail db.customers cust1.email = some c →
        ∀ o db', OrderService.create db input1 = .ok (o, db') →
          o.customerId = c.id ∧ db'.customers = db.customers) ∧
    ((∀ c ∈ db.customers, c.email ≠ cust1.email) →
        ∀ o1 db1 o2 db2, OrderService.create db input1 = .ok (o1, db1) →
          OrderService.create db1 input2 = .ok (o2, db2) →
          o2.customerId = o1.customerId ∧ db2.customers = db1.customers) := by
  constructor
  · intro c hfound o db' hcr
    obtain ⟨cid, dbA, totals, itemsData, hcust, -, -, hocid, -, -, -, -, -, -, -,
      hdbcust, -, -⟩ := createOkElim db input1 o db' hcr
    have hreuse := getOrCreateCustomerReuse db input1 cust1 c h1 hc1 hfound
    rw [hreuse] at hcust
    simp only [Except.ok.injEq, Prod.mk.injEq] at hcust
    constructor
    · rw [hocid, ← hcust.1]
    · rw [hdbcust, ← hcust.2]
  · intro hfresh o1 db1 o2 db2 hcr1 hcr2
    have hnone : OrderRepository.findCustomerByEmail db.customers cust1.email = none :=
      findCustomerByEmailNone db.customers cust1.email hfresh
    obtain ⟨cidA, dbA, totalsA, itemsA, hcustA, -, -, hocidA, -, -, -, -, -, -, -,
      hdbcustA, -, -⟩ := createOkElim db input1 o1 db1 hcr1
    obtain ⟨hcidA, hdbAcust⟩ :=
      getOrCreateCustomerInsert db input1 cust1 cidA dbA h1 hc1 hnone hcustA
    obtain ⟨cidB, dbB, totalsB, itemsB, hcustB, -, -, hocidB, -, -, -, -, -, -, -,
      hdbcustB, -, -⟩ := createOkElim db1 input2 o2 db2 hcr2
    have hfind2 : OrderRepository.findCustomerByEmail db1.customers cust2.email =
        some ⟨db.nextCustomerId, cust1.name, cust1.email, true, false⟩ := by
      rw [hdbcustA, hdbAcust, hemail]
      exact findCustomerByEmailAppend db.customers _ cust1.email hnone rfl rfl
    have hreuse2 := getOrCreateCustomerReuse db1 input2 cust2
      ⟨db.nextCustomerId, cust1.name, cust1.email, true, false⟩ h2 hc2 hfind2
    rw [hreuse2] at hcustB
    simp only [Except.ok.injEq, Prod.mk.injEq] at hcustB
    constructor
    · rw [hocidB, ← hcustB.1, hocidA, hcidA]
    · rw [hdbcustB, ← hcustB.2]

/-- C7, witness: two orders created in sequence with the same fresh
inline email share one customer id, and the second leaves the customers
table unchanged. -/
theorem customer_dedup_spec_witness :
    (∀ c ∈ Fixtures.baseDB.customers, c.email ≠ "bob@example.com") ∧
    (∃ o1 db1 o2 db2,
        OrderService.create Fixtures.baseDB Fixtures.inlineInput = .ok (o1, db1) ∧
        OrderService.create db1 Fixtures.inlineInput = .ok (o2, db2) ∧
        o2.customerId = o1.customerId ∧ db2.customers = db1.customers) := by
  have hfresh : ∀ c ∈ Fixtures.baseDB.customers, c.email ≠ "bob@example.com" := by decide
  refine ⟨hfresh, _, _, _, _, rfl, rfl, ?_⟩
  exact (customer_dedup_spec Fixtures.baseDB Fixtures.inlineInput Fixtures.inlineInput
      ⟨"Bob", "bob@example.com"⟩ ⟨"Bob", "bob@example.com"⟩ rfl rfl rfl rfl rfl).2
    hfresh _ _ _ _ rfl rfl

end TenisPro
